import Mathlib

/-!
Verification model of the real-time dashboard hooks of this repository:
`useWebSocket` (src/dashboard/lib/api.ts, the websocket section) and
`useRealTimeData` (src/dashboard/hooks/use-real-time-data.ts).

The hooks are React code: component state lives in `useState` cells, the
socket/timer handles in refs, and every socket or timer callback is a
closure that captures the state *values of the render in which it was
created* (`reconnectAttempts`, `url`, `isRealTimeEnabled`), while the
functional updaters (`setReconnectAttempts (prev) => prev + 1`,
`setUpdateCount (prev) => prev + 1`) act on the live state.  The model
below makes that capture explicit: a `Closure` records the captured
values, each created socket and each scheduled reconnect timer carries
the closure of the `connect` invocation that created it, and the live
component state is an `AppState` record transformed by a total `step`
function driven by external events (socket open/close/error/message,
timer fire, user toggle, send).
-/

namespace Dashboard

/-- JSON values as produced by `JSON.parse` on a text frame.  Numeric
tokens are kept as their source lexeme: no behavior in the hooks
inspects a numeric value, only acceptance matters. -/
inductive Json where
  | null : Json
  | bool (b : Bool) : Json
  | num (lexeme : String) : Json
  | str (s : String) : Json
  | arr (elems : List Json) : Json
  | obj (members : List (String × Json)) : Json
deriving Repr

/-- Character constants used by the frame grammar. -/
def quoteCh : Char := Char.ofNat 34

def backslashCh : Char := Char.ofNat 92

def lbraceCh : Char := Char.ofNat 123

def rbraceCh : Char := Char.ofNat 125

def lbrackCh : Char := Char.ofNat 91

def rbrackCh : Char := Char.ofNat 93

def commaCh : Char := Char.ofNat 44

def colonCh : Char := Char.ofNat 58

def minusCh : Char := Char.ofNat 45

def dotCh : Char := Char.ofNat 46

/-- JSON insignificant whitespace: space, tab, line feed, carriage return. -/
def isWsCh (c : Char) : Bool :=
  c = Char.ofNat 32 || c = Char.ofNat 9 || c = Char.ofNat 10 || c = Char.ofNat 13

def skipWs : List Char → List Char
  | [] => []
  | c :: cs => if isWsCh c then skipWs cs else c :: cs

def isDigitCh (c : Char) : Bool :=
  48 ≤ c.toNat && c.toNat ≤ 57

/-- Value of one hexadecimal digit, if the character is one. -/
def hexVal (c : Char) : Option Nat :=
  if 48 ≤ c.toNat && c.toNat ≤ 57 then some (c.toNat - 48)
  else if 97 ≤ c.toNat && c.toNat ≤ 102 then some (c.toNat - 87)
  else if 65 ≤ c.toNat && c.toNat ≤ 70 then some (c.toNat - 55)
  else none

/-- Body of a JSON string after the opening quote: returns the decoded
characters and the input remaining after the closing quote.  Handles
the escape sequences `JSON.parse` accepts and rejects raw control
characters, as `JSON.parse` does. -/
def parseStr : List Char → Option (List Char × List Char)
  | [] => none
  | c :: cs =>
    if c = quoteCh then some ([], cs)
    else if c = backslashCh then
      match cs with
      | [] => none
      | e :: cs2 =>
        if e = quoteCh then (parseStr cs2).map (fun p => (quoteCh :: p.1, p.2))
        else if e = backslashCh then (parseStr cs2).map (fun p => (backslashCh :: p.1, p.2))
        else if e = Char.ofNat 47 then (parseStr cs2).map (fun p => (Char.ofNat 47 :: p.1, p.2))
        else if e = 'b' then (parseStr cs2).map (fun p => (Char.ofNat 8 :: p.1, p.2))
        else if e = 'f' then (parseStr cs2).map (fun p => (Char.ofNat 12 :: p.1, p.2))
        else if e = 'n' then (parseStr cs2).map (fun p => (Char.ofNat 10 :: p.1, p.2))
        else if e = 'r' then (parseStr cs2).map (fun p => (Char.ofNat 13 :: p.1, p.2))
        else if e = 't' then (parseStr cs2).map (fun p => (Char.ofNat 9 :: p.1, p.2))
        else if e = 'u' then
          match cs2 with
          | h1 :: h2 :: h3 :: h4 :: cs3 =>
            match hexVal h1, hexVal h2, hexVal h3, hexVal h4 with
            | some a, some b, some c3, some d =>
              (parseStr cs3).map
                (fun p => (Char.ofNat (a * 4096 + b * 256 + c3 * 16 + d) :: p.1, p.2))
            | _, _, _, _ => none
          | _ => none
        else none
    else if c.toNat < 32 then none
    else (parseStr cs).map (fun p => (c :: p.1, p.2))

/-- Longest digit run at the head of the input. -/
def takeDigits : List Char → List Char × List Char
  | [] => ([], [])
  | c :: cs =>
    if isDigitCh c then
      let p := takeDigits cs
      (c :: p.1, p.2)
    else ([], c :: cs)

/-- Optional exponent part of a number lexeme. -/
def parseExpPart (lex : List Char) (cs : List Char) : Option (List Char × List Char) :=
  match cs with
  | e :: cs1 =>
    if e = 'e' || e = 'E' then
      match cs1 with
      | s :: cs2 =>
        if s = Char.ofNat 43 || s = minusCh then
          match takeDigits cs2 with
          | ([], _) => none
          | (d, r) => some (lex ++ e :: s :: d, r)
        else
          match takeDigits cs1 with
          | ([], _) => none
          | (d, r) => some (lex ++ e :: d, r)
      | [] => none
    else some (lex, cs)
  | [] => some (lex, cs)

/-- Optional fraction then exponent after the integer part. -/
def parseFracExp (lex : List Char) (cs : List Char) : Option (List Char × List Char) :=
  match cs with
  | c :: cs1 =>
    if c = dotCh then
      match takeDigits cs1 with
      | ([], _) => none
      | (d, r) => parseExpPart (lex ++ c :: d) r
    else parseExpPart lex cs
  | [] => some (lex, cs)

/-- A JSON number lexeme at the head of the input. -/
def parseNum (cs : List Char) : Option (List Char × List Char) :=
  let sign : List Char × List Char :=
    match cs with
    | c :: t => if c = minusCh then ([c], t) else ([], cs)
    | [] => ([], [])
  match sign.2 with
  | [] => none
  | c :: t =>
    if c.toNat = 48 then parseFracExp (sign.1 ++ [c]) t
    else if isDigitCh c then
      let p := takeDigits t
      parseFracExp (sign.1 ++ c :: p.1) p.2
    else none

mutual

/-- One JSON value at the head of the input, fuel-bounded. -/
def parseValue : Nat → List Char → Option (Json × List Char)
  | 0, _ => none
  | Nat.succ f, cs =>
    match skipWs cs with
    | [] => none
    | c :: cs1 =>
      if c = quoteCh then
        (parseStr cs1).map (fun p => (Json.str (String.mk p.1), p.2))
      else if c = lbraceCh then
        match skipWs cs1 with
        | c2 :: r2 =>
          if c2 = rbraceCh then some (Json.obj [], r2)
          else (parseMembers f (c2 :: r2)).map (fun p => (Json.obj p.1, p.2))
        | [] => none
      else if c = lbrackCh then
        match skipWs cs1 with
        | c2 :: r2 =>
          if c2 = rbrackCh then some (Json.arr [], r2)
          else (parseElems f (c2 :: r2)).map (fun p => (Json.arr p.1, p.2))
        | [] => none
      else if c = 't' then
        match cs1 with
        | 'r' :: 'u' :: 'e' :: r => some (Json.bool true, r)
        | _ => none
      else if c = 'f' then
        match cs1 with
        | 'a' :: 'l' :: 's' :: 'e' :: r => some (Json.bool false, r)
        | _ => none
      else if c = 'n' then
        match cs1 with
        | 'u' :: 'l' :: 'l' :: r => some (Json.null, r)
        | _ => none
      else if c = minusCh || isDigitCh c then
        (parseNum (c :: cs1)).map (fun p => (Json.num (String.mk p.1), p.2))
      else none

/-- The members of an object, after its opening brace, ending at the
closing brace. -/
def parseMembers : Nat → List Char → Option (List (String × Json) × List Char)
  | 0, _ => none
  | Nat.succ f, cs =>
    match skipWs cs with
    | [] => none
    | c :: cs1 =>
      if c = quoteCh then
        match parseStr cs1 with
        | none => none
        | some (k, r1) =>
          match skipWs r1 with
          | [] => none
          | c2 :: r2 =>
            if c2 = colonCh then
              match parseValue f r2 with
              | none => none
              | some (v, r3) =>
                match skipWs r3 with
                | [] => none
                | c3 :: r4 =>
                  if c3 = commaCh then
                    (parseMembers f r4).map (fun p => ((String.mk k, v) :: p.1, p.2))
                  else if c3 = rbraceCh then some ([(String.mk k, v)], r4)
                  else none
            else none
      else none

/-- The elements of an array, after its opening bracket, ending at the
closing bracket. -/
def parseElems : Nat → List Char → Option (List Json × List Char)
  | 0, _ => none
  | Nat.succ f, cs =>
    match parseValue f cs with
    | none => none
    | some (v, r1) =>
      match skipWs r1 with
      | [] => none
      | c2 :: r2 =>
        if c2 = commaCh then
          (parseElems f r2).map (fun p => (v :: p.1, p.2))
        else if c2 = rbrackCh then some ([v], r2)
        else none

end

/-- `JSON.parse` on a raw text frame: one value, optionally surrounded
by whitespace, consuming the whole input.  The fuel bound exceeds any
possible recursion depth for the given input. -/
def parseJson (raw : String) : Option Json :=
  match parseValue (raw.data.length + raw.data.length + 8) raw.data with
  | some (j, rest) => if (skipWs rest).isEmpty then some j else none
  | none => none

/-- Value of the `"type"` member when the parsed frame is an object
with a string there.  A repeated key keeps the last value, as a
JavaScript object literal does; `update.type` on a non-object or a
missing/non-string member yields no value, so the `switch` falls
through to its default. -/
def lastField (ms : List (String × Json)) (k : String) : Option Json :=
  ms.foldl (fun acc p => if p.1 = k then some p.2 else acc) none

def typeFieldStr (j : Json) : Option String :=
  match j with
  | Json.obj ms =>
    match lastField ms "type" with
    | some (Json.str t) => some t
    | _ => none
  | _ => none

/-- The `switch (update.type)` of `useRealTimeData`: cache-key groups
invalidated for a known event type; anything else hits the default
case and invalidates nothing. -/
def invalidateForType (t : String) : List String :=
  if t = "dashboard_metrics" then ["dashboard-metrics"]
  else if t = "funnel_analysis" then ["funnel-analysis", "dropoff-analysis"]
  else if t = "sentiment_analysis" then ["sentiment-analysis"]
  else if t = "user_behavior" then ["user-behavior", "user-journey-patterns", "similar-users"]
  else []

/-- Key groups invalidated for a delivered parsed frame. -/
def routeOfJson (j : Json) : List String :=
  match typeFieldStr j with
  | some t => invalidateForType t
  | none => []

/-- `connectionStatus` values of `useWebSocket`. -/
inductive ConnStatus where
  | connecting | connected | disconnected | error
deriving Repr, DecidableEq

/-- Lifecycle of one physical `WebSocket` object. -/
inductive SockStatus where
  | connecting | opened | closing | closed
deriving Repr, DecidableEq

/-- The render-time values a `connect` invocation closes over: the hook
argument `url`, the `reconnectAttempts` state value of that render
(read by the `onclose` guard), and the `isRealTimeEnabled` value
captured by the `onMessage` callback of that render.  Every socket the
invocation creates, and every reconnect timer scheduled from its
`onclose`, carries this closure unchanged — the timer callback calls
the same render's `connect`, so the whole reconnect chain shares it. -/
structure Closure where
  url : String
  attempts : Nat
  enabled : Bool
deriving Repr, DecidableEq

/-- One `WebSocket` object ever constructed, with its handler closure. -/
structure Socket where
  sid : Nat
  clos : Closure
  status : SockStatus
deriving Repr, DecidableEq

/-- One pending `setTimeout` reconnect timer. -/
structure Timer where
  tid : Nat
  clos : Closure
deriving Repr, DecidableEq

/-- Hook construction constants: `reconnectInterval = 3000`,
`maxReconnectAttempts = 5`, and the configured endpoint url. -/
structure Config where
  reconnectInterval : Nat
  maxReconnectAttempts : Nat
  wsUrl : String
deriving Repr, DecidableEq

/-- Live state of the composed hooks.  The first block is the
`useWebSocket` state and refs; the second is the `useRealTimeData`
state; `invalidations` logs every `queryClient.invalidateQueries` call
and `sent` every transport write, in order. -/
structure AppState where
  isConnected : Bool
  connectionStatus : ConnStatus
  lastMessage : Option Json
  reconnectAttempts : Nat
  wsCurrent : Option Nat
  reconnectTimeoutRef : Option Nat
  sockets : List Socket
  timers : List Timer
  nextId : Nat
  isRealTimeEnabled : Bool
  updateCount : Nat
  lastUpdateSet : Bool
  invalidations : List String
  sent : List Json
deriving Repr

def findSock (l : List Socket) (sid : Nat) : Option Socket :=
  l.find? (fun k => k.sid = sid)

def findTimer (l : List Timer) (tid : Nat) : Option Timer :=
  l.find? (fun t => t.tid = tid)

def setStatus (l : List Socket) (sid : Nat) (st : SockStatus) : List Socket :=
  l.map (fun k => if k.sid = sid then { k with status := st } else k)

/-- `ws.close()`: begins closing a socket that is connecting or open;
the close event itself arrives later, asynchronously. -/
def closeSock (l : List Socket) (sid : Nat) : List Socket :=
  l.map (fun k =>
    if k.sid = sid ∧ (k.status = SockStatus.connecting ∨ k.status = SockStatus.opened)
    then { k with status := SockStatus.closing } else k)

/-- Number of sockets whose handshake has completed and that are not
yet closed or closing: the physically open connections. -/
def openCount (s : AppState) : Nat :=
  (s.sockets.filter (fun k => k.status = SockStatus.opened)).length

/-- `connect` of `useWebSocket`.  An empty url only sets the status; a
nonempty url sets `connecting` and constructs a new `WebSocket`,
overwriting `ws.current` — the source never closes a previously open
socket here. -/
def connect (s : AppState) (c : Closure) : AppState :=
  if c.url = "" then
    { s with connectionStatus := ConnStatus.disconnected, isConnected := false }
  else
    { s with connectionStatus := ConnStatus.connecting,
             sockets := s.sockets ++ [⟨s.nextId, c, SockStatus.connecting⟩],
             wsCurrent := some s.nextId,
             nextId := s.nextId + 1 }

/-- The `onopen` handler: connected, and the live `reconnectAttempts`
state is set to 0. -/
def wsOnOpen (s : AppState) : AppState :=
  { s with isConnected := true,
           connectionStatus := ConnStatus.connected,
           reconnectAttempts := 0 }

/-- The `onclose` handler of a socket whose closure is `c`: marks the
hook disconnected, then, when the *captured* `reconnectAttempts` value
`c.attempts` is below `maxReconnectAttempts`, stores a new timer in
`reconnectTimeoutRef` (overwriting, not clearing, any previous one)
carrying the same closure. -/
def wsOnClose (cfg : Config) (c : Closure) (s : AppState) : AppState :=
  let s1 := { s with isConnected := false, connectionStatus := ConnStatus.disconnected }
  if c.attempts < cfg.maxReconnectAttempts then
    { s1 with timers := s1.timers ++ [⟨s1.nextId, c⟩],
              reconnectTimeoutRef := some s1.nextId,
              nextId := s1.nextId + 1 }
  else s1

/-- The `onMessage` callback of `useRealTimeData`, with the
`isRealTimeEnabled` value it captured.  When enabled it records the
update time, bumps `updateCount` with a functional updater, and runs
the invalidation switch on `update.type`. -/
def rtOnMessage (c : Closure) (j : Json) (s : AppState) : AppState :=
  if c.enabled then
    { s with lastUpdateSet := true,
             updateCount := s.updateCount + 1,
             invalidations := s.invalidations ++ routeOfJson j }
  else s

/-- The `onmessage` handler of `useWebSocket`: `JSON.parse` under
try/catch — a parse failure only logs and changes nothing; a parsed
message is stored in `lastMessage` and handed to `onMessage`. -/
def wsOnMessage (c : Closure) (raw : String) (s : AppState) : AppState :=
  match parseJson raw with
  | none => s
  | some j => rtOnMessage c j { s with lastMessage := some j }

/-- `disconnect` of `useWebSocket`: clears the timer currently named by
`reconnectTimeoutRef` (the ref itself is never reset) and calls
`close()` on `ws.current`. -/
def disconnect (s : AppState) : AppState :=
  let s1 :=
    match s.reconnectTimeoutRef with
    | some tid => { s with timers := s.timers.filter (fun u => u.tid ≠ tid) }
    | none => s
  match s1.wsCurrent with
  | some sid => { s1 with sockets := closeSock s1.sockets sid }
  | none => s1

/-- `sendMessage`: writes to the transport and returns true exactly
when `ws.current` exists and its `readyState` is OPEN; otherwise
returns false without queueing anything. -/
def sendMessage (s : AppState) (m : Json) : AppState × Bool :=
  match s.wsCurrent with
  | some sid =>
    match findSock s.sockets sid with
    | some k =>
      if k.status = SockStatus.opened then ({ s with sent := s.sent ++ [m] }, true)
      else (s, false)
    | none => (s, false)
  | none => (s, false)

/-- Whether the current socket is physically open — the condition
`sendMessage` tests. -/
def socketOpenNow (s : AppState) : Bool :=
  match s.wsCurrent with
  | some sid =>
    match findSock s.sockets sid with
    | some k => k.status = SockStatus.opened
    | none => false
  | none => false

/-- `toggleRealTime` plus the `useEffect` re-run its url change causes:
the effect cleanup runs `disconnect`, then the body either calls the
new render's `connect` (capturing the live `reconnectAttempts` and the
new enabled flag) or, for the empty url, just reports disconnected. -/
def toggleRealTime (cfg : Config) (s : AppState) : AppState :=
  let en := !s.isRealTimeEnabled
  let s1 := disconnect { s with isRealTimeEnabled := en }
  if en then connect s1 ⟨cfg.wsUrl, s1.reconnectAttempts, en⟩
  else { s1 with connectionStatus := ConnStatus.disconnected, isConnected := false }

/-- External events driving the composed hooks: transport callbacks on
a given socket, a reconnect timer firing, the user toggling real time,
a consumer calling the returned `connect`, and a send request. -/
inductive Ev where
  | sockOpen (sid : Nat)
  | sockClose (sid : Nat)
  | sockError (sid : Nat)
  | sockMsg (sid : Nat) (raw : String)
  | timerFire (tid : Nat)
  | toggle
  | callConnect
  | send (m : Json)

/-- One event step.  Socket events act only on an existing socket in a
compatible lifecycle phase; handlers run for *every* socket that was
constructed, current or orphaned, because the source never detaches
them.  A timer that is no longer pending does nothing. -/
def step (cfg : Config) (s : AppState) (e : Ev) : AppState :=
  match e with
  | Ev.sockOpen sid =>
    match findSock s.sockets sid with
    | some k =>
      if k.status = SockStatus.connecting then
        wsOnOpen { s with sockets := setStatus s.sockets sid SockStatus.opened }
      else s
    | none => s
  | Ev.sockClose sid =>
    match findSock s.sockets sid with
    | some k =>
      if k.status = SockStatus.closed then s
      else wsOnClose cfg k.clos { s with sockets := setStatus s.sockets sid SockStatus.closed }
    | none => s
  | Ev.sockError sid =>
    match findSock s.sockets sid with
    | some k =>
      if k.status = SockStatus.closed then s
      else { s with connectionStatus := ConnStatus.error }
    | none => s
  | Ev.sockMsg sid raw =>
    match findSock s.sockets sid with
    | some k => if k.status = SockStatus.opened then wsOnMessage k.clos raw s else s
    | none => s
  | Ev.timerFire tid =>
    match findTimer s.timers tid with
    | some t =>
      connect { s with timers := s.timers.filter (fun u => u.tid ≠ tid),
                       reconnectAttempts := s.reconnectAttempts + 1 } t.clos
    | none => s
  | Ev.toggle => toggleRealTime cfg s
  | Ev.callConnect =>
    connect s ⟨if s.isRealTimeEnabled then cfg.wsUrl else "", s.reconnectAttempts,
               s.isRealTimeEnabled⟩
  | Ev.send m => (sendMessage s m).1

def run (cfg : Config) (s : AppState) (evs : List Ev) : AppState :=
  evs.foldl (step cfg) s

/-- Mounted state of `useRealTimeData`: real time disabled by default,
no socket, no timer, counters at zero. -/
def initialState : AppState :=
  ⟨false, ConnStatus.disconnected, none, 0, none, none, [], [], 0, false, 0, false, [], []⟩

/-- The constants `useRealTimeData` supplies: default interval 3000 ms,
default budget 5 attempts, the default endpoint. -/
def cfg5 : Config := ⟨3000, 5, "ws://localhost:8000/ws"⟩

/-- The exhaustion scenario of the spec: enable, then five consecutive
close events with no successful open in between; each scheduled
reconnect timer fires before the next failure.  Socket ids are 0, 2,
4, 6, 8 and timer ids 1, 3, 5, 7, 9 as allocated by the model. -/
def evsFiveFailures : List Ev :=
  [Ev.toggle, Ev.sockClose 0, Ev.timerFire 1, Ev.sockClose 2, Ev.timerFire 3,
   Ev.sockClose 4, Ev.timerFire 5, Ev.sockClose 6, Ev.timerFire 7, Ev.sockClose 8]

/-- Enable, a successful open, disable, then the asynchronous close
event of the deliberately closed socket. -/
def evsDisable : List Ev := [Ev.toggle, Ev.sockOpen 0, Ev.toggle, Ev.sockClose 0]

/-- Exhaust the live attempt counter to 5, then disable and re-enable. -/
def evsReenable : List Ev :=
  evsFiveFailures ++ [Ev.timerFire 9, Ev.toggle, Ev.toggle]

/-- Enabled and connected on socket 0: the state the message-delivery
scenarios start from. -/
def sConn : AppState := run cfg5 initialState [Ev.toggle, Ev.sockOpen 0]

/-- The concrete frame of the spec scenario. -/
def frameMetrics : String :=
  "\x7b\"type\":\"dashboard_metrics\",\"data\":\x7b\x7d,\"timestamp\":\"2024-01-01T00:00:00Z\"\x7d"

/-- The four known frame types. -/
def knownTypes : List String :=
  ["dashboard_metrics", "funnel_analysis", "sentiment_analysis", "user_behavior"]

end Dashboard
namespace Dashboard

/-- C1: the claim says that after `maxAttempts` consecutive connect
failures no further reconnect timer is ever scheduled and zero timers
remain pending.  Evaluating the code on the spec's own scenario
(interval 3000 ms, maxAttempts 5, five consecutive close events, each
scheduled timer firing before the next failure) shows one reconnect
timer still pending after the fifth failure, a sixth socket then being
constructed, and after its failure yet another timer pending: the
`onclose` guard compares the stale captured attempt count 0, so the
cycle never exhausts. -/
theorem reconnect_budget_never_exhausts :
    (run cfg5 initialState evsFiveFailures).timers.length = 1
    ∧ (run cfg5 initialState (evsFiveFailures ++ [Ev.timerFire 9, Ev.sockClose 10])).sockets.length = 6
    ∧ (run cfg5 initialState (evsFiveFailures ++ [Ev.timerFire 9, Ev.sockClose 10])).timers.length = 1 := by
  exact ⟨rfl, rfl, rfl⟩

/-- C2: the claim says that after disable (plus one tick for the
asynchronous close) zero reconnect timers are pending, and a timer
firing after disable opens no socket.  Evaluating the code on the
trace enable, open, disable, close-tick shows one pending reconnect
timer created by the close handler of the deliberately closed socket;
letting it fire and the handshake complete yields an open socket while
the feature is disabled. -/
theorem disable_leaves_pending_reconnect :
    (run cfg5 initialState evsDisable).isRealTimeEnabled = false
    ∧ (run cfg5 initialState evsDisable).timers.length = 1
    ∧ (run cfg5 initialState (evsDisable ++ [Ev.timerFire 1, Ev.sockOpen 2])).isRealTimeEnabled = false
    ∧ openCount (run cfg5 initialState (evsDisable ++ [Ev.timerFire 1, Ev.sockOpen 2])) = 1 := by
  exact ⟨rfl, rfl, rfl, rfl⟩

/-- C3: the claim says `connect` is a no-op when already Connected with
the same url, otherwise closes the existing socket first, so at most
one socket is ever open.  Evaluating the code on the trace enable,
open, connect-again, open shows the second `connect` constructing a
second socket while Connected to the same url and leaving the first
one open: two sockets open at once. -/
theorem connect_leaves_two_sockets_open :
    (run cfg5 initialState [Ev.toggle, Ev.sockOpen 0]).connectionStatus = ConnStatus.connected
    ∧ (run cfg5 initialState [Ev.toggle, Ev.sockOpen 0, Ev.callConnect]).sockets.length = 2
    ∧ openCount (run cfg5 initialState [Ev.toggle, Ev.sockOpen 0, Ev.callConnect, Ev.sockOpen 1]) = 2 := by
  exact ⟨rfl, rfl, rfl⟩

/-- C4 counterexample: re-enabling after the attempt counter reached 5
does not reset it as part of the `connect` call — before any open
event the live counter still reads 5, and the socket the re-enable
constructed captured 5 as well. -/
theorem reenable_does_not_reset_attempts :
    (run cfg5 initialState evsReenable).reconnectAttempts = 5
    ∧ findSock (run cfg5 initialState evsReenable).sockets 11 =
        some ⟨11, ⟨"ws://localhost:8000/ws", 5, true⟩, SockStatus.connecting⟩ := by
  exact ⟨rfl, rfl⟩

/-- C4 amended: `attemptsUsed` is reset to 0 only by the `onopen`
handler of a successful Connected transition; the `connect` call
itself leaves the live attempt counter unchanged. -/
theorem attempts_reset_only_on_open :
    (∀ (s : AppState) (c : Closure), (connect s c).reconnectAttempts = s.reconnectAttempts)
    ∧ ∀ s : AppState, (wsOnOpen s).reconnectAttempts = 0 := by
  constructor
  · intro s c
    unfold connect
    split <;> rfl
  · intro s
    rfl

/-- C5 counterexample: the frame text of an empty object parses
successfully, contains neither `type` nor `data`, and is nevertheless
delivered: it is stored as the last message and handed to the
`onMessage` callback, which counts it. -/
theorem frame_without_fields_is_delivered :
    (run cfg5 sConn [Ev.sockMsg 0 "\x7b\x7d"]).lastMessage = some (Json.obj [])
    ∧ (run cfg5 sConn [Ev.sockMsg 0 "\x7b\x7d"]).updateCount = 1 := by
  exact ⟨rfl, rfl⟩

/-- C5 amended: every raw frame that parses successfully is delivered
as an event — stored in `lastMessage` and, when the receiving socket's
callback captured the enabled flag, counted — with no validation that
the parsed object contains `type` or `data`. -/
theorem parsed_frames_always_delivered
    (cfg : Config) (s : AppState) (sid : Nat) (k : Socket) (raw : String) (j : Json)
    (hf : findSock s.sockets sid = some k) (hst : k.status = SockStatus.opened)
    (hp : parseJson raw = some j) :
    (step cfg s (Ev.sockMsg sid raw)).lastMessage = some j
    ∧ (k.clos.enabled = true →
        (step cfg s (Ev.sockMsg sid raw)).updateCount = s.updateCount + 1) := by
  simp only [step, hf, hst, if_pos, wsOnMessage, hp]
  unfold rtOnMessage
  constructor
  · split <;> rfl
  · intro he
    rw [he]
    simp

/-- C5 amended, witness: the empty-object frame at the connected
state. -/
theorem parsed_frames_always_delivered_witness :
    (step cfg5 sConn (Ev.sockMsg 0 "\x7b\x7d")).lastMessage = some (Json.obj [])
    ∧ (step cfg5 sConn (Ev.sockMsg 0 "\x7b\x7d")).updateCount = sConn.updateCount + 1 := by
  have h := parsed_frames_always_delivered cfg5 sConn 0
    ⟨0, ⟨"ws://localhost:8000/ws", 0, true⟩, SockStatus.opened⟩ "\x7b\x7d" (Json.obj [])
    rfl rfl rfl
  exact ⟨h.1, h.2 rfl⟩

/-- Helper: a message event whose payload fails to parse leaves the
state unchanged, whatever socket it targets. -/
lemma step_sockMsg_of_parse_none
    (cfg : Config) (s : AppState) (sid : Nat) (raw : String)
    (hp : parseJson raw = none) :
    step cfg s (Ev.sockMsg sid raw) = s := by
  simp only [step]
  cases hf : findSock s.sockets sid with
  | none => rfl
  | some k =>
    by_cases hst : k.status = SockStatus.opened
    · simp only [hst, if_pos, wsOnMessage, hp]
    · simp only [hst, if_neg]
      simp

/-- C6: a raw frame that fails to parse is absorbed by the try/catch of
the message handler: the step leaves the entire state unchanged — in
particular the connection state, socket list and `updateCount`. -/
theorem malformed_frame_is_noop
    (cfg : Config) (s : AppState) (sid : Nat) (raw : String)
    (hp : parseJson raw = none) :
    step cfg s (Ev.sockMsg sid raw) = s :=
  step_sockMsg_of_parse_none cfg s sid raw hp

/-- C6 witness: the non-JSON text frame at the connected state. -/
theorem malformed_frame_is_noop_witness :
    parseJson "not json" = none ∧ step cfg5 sConn (Ev.sockMsg 0 "not json") = sConn :=
  ⟨rfl, malformed_frame_is_noop cfg5 sConn 0 "not json" rfl⟩

end Dashboard
namespace Dashboard

/-- C7: `updateCount` increases by exactly one per successfully parsed
event delivered to an enabled callback, never for a frame that fails
to parse and never on a (re)connect open event; in particular the
concrete `dashboard_metrics` frame of the scenario, delivered while
connected and enabled, takes the counter to exactly 1 and invalidates
exactly the `dashboard-metrics` group once. -/
theorem update_count_per_event :
    (∀ (cfg : Config) (s : AppState) (sid : Nat) (k : Socket) (raw : String) (j : Json),
        findSock s.sockets sid = some k → k.status = SockStatus.opened →
        k.clos.enabled = true → parseJson raw = some j →
        (step cfg s (Ev.sockMsg sid raw)).updateCount = s.updateCount + 1)
    ∧ (∀ (cfg : Config) (s : AppState) (sid : Nat) (raw : String),
        parseJson raw = none →
        (step cfg s (Ev.sockMsg sid raw)).updateCount = s.updateCount)
    ∧ (∀ (cfg : Config) (s : AppState) (sid : Nat),
        (step cfg s (Ev.sockOpen sid)).updateCount = s.updateCount)
    ∧ (run cfg5 sConn [Ev.sockMsg 0 frameMetrics]).updateCount = 1
    ∧ (run cfg5 sConn [Ev.sockMsg 0 frameMetrics]).invalidations = ["dashboard-metrics"] := by
  refine ⟨?_, ?_, ?_, rfl, rfl⟩
  · intro cfg s sid k raw j hf hst he hp
    simp [step, hf, hst, wsOnMessage, hp, rtOnMessage, he]
  · intro cfg s sid raw hp
    rw [step_sockMsg_of_parse_none cfg s sid raw hp]
  · intro cfg s sid
    simp only [step]
    cases hf : findSock s.sockets sid with
    | none => rfl
    | some k =>
      by_cases hst : k.status = SockStatus.connecting
      · simp [hst, wsOnOpen]
      · simp [hst]

/-- C7 witness: the general per-event increment applied to the concrete
scenario frame at the connected, enabled state. -/
theorem update_count_per_event_witness :
    (step cfg5 sConn (Ev.sockMsg 0 frameMetrics)).updateCount = sConn.updateCount + 1 :=
  update_count_per_event.1 cfg5 sConn 0
    ⟨0, ⟨"ws://localhost:8000/ws", 0, true⟩, SockStatus.opened⟩ frameMetrics
    (Json.obj [("type", Json.str "dashboard_metrics"), ("data", Json.obj []),
               ("timestamp", Json.str "2024-01-01T00:00:00Z")])
    rfl rfl rfl rfl

/-- C8: the invalidation switch maps each known type to exactly the
claimed key groups, each group once (the lists have no duplicates), a
type outside the known set invalidates nothing, and a delivered event
appends exactly the routed groups to the invalidation log. -/
theorem invalidation_routing_table :
    invalidateForType "dashboard_metrics" = ["dashboard-metrics"]
    ∧ invalidateForType "funnel_analysis" = ["funnel-analysis", "dropoff-analysis"]
    ∧ invalidateForType "sentiment_analysis" = ["sentiment-analysis"]
    ∧ invalidateForType "user_behavior" =
        ["user-behavior", "user-journey-patterns", "similar-users"]
    ∧ (∀ t : String, t ∉ knownTypes → invalidateForType t = [])
    ∧ (∀ t : String, (invalidateForType t).Nodup)
    ∧ (∀ (c : Closure) (j : Json) (s : AppState), c.enabled = true →
        (rtOnMessage c j s).invalidations = s.invalidations ++ routeOfJson j) := by
  refine ⟨rfl, rfl, rfl, rfl, ?_, ?_, ?_⟩
  · intro t ht
    simp only [knownTypes, List.mem_cons, List.not_mem_nil, or_false, not_or] at ht
    obtain ⟨h1, h2, h3, h4⟩ := ht
    simp [invalidateForType, h1, h2, h3, h4]
  · intro t
    unfold invalidateForType
    split
    · decide
    · split
      · decide
      · split
        · decide
        · split
          · decide
          · decide
  · intro c j s he
    simp [rtOnMessage, he]

/-- C8 witness: an unrecognized type routes to no group, and delivering
a typeless event appends its (empty) route to the log. -/
theorem invalidation_routing_table_witness :
    invalidateForType "unknown_event" = []
    ∧ (rtOnMessage ⟨"ws://localhost:8000/ws", 0, true⟩ Json.null initialState).invalidations
        = initialState.invalidations ++ routeOfJson Json.null :=
  ⟨invalidation_routing_table.2.2.2.2.1 "unknown_event" (by decide),
   invalidation_routing_table.2.2.2.2.2.2 ⟨"ws://localhost:8000/ws", 0, true⟩ Json.null
     initialState rfl⟩

/-- C9: `sendMessage` succeeds — returns true and performs the single
transport write — exactly when the current socket is open; in every
other state it returns false and the state, in particular any queue,
is untouched: the message is not buffered. -/
theorem send_succeeds_iff_open (s : AppState) (m : Json) :
    ((sendMessage s m).2 = true ↔ socketOpenNow s = true)
    ∧ ((sendMessage s m).2 = false → (sendMessage s m).1 = s)
    ∧ ((sendMessage s m).2 = true → (sendMessage s m).1.sent = s.sent ++ [m]) := by
  unfold sendMessage socketOpenNow
  cases hw : s.wsCurrent with
  | none => simp
  | some sid =>
    cases hf : findSock s.sockets sid with
    | none => simp [hf]
    | some k =>
      by_cases hst : k.status = SockStatus.opened
      · simp [hf, hst]
      · simp [hf, hst]

/-- C9 witness: sending at the connected state succeeds and writes the
message; sending at the freshly mounted state fails and changes
nothing. -/
theorem send_succeeds_iff_open_witness :
    (sendMessage sConn Json.null).2 = true
    ∧ (sendMessage sConn Json.null).1.sent = sConn.sent ++ [Json.null]
    ∧ (sendMessage initialState Json.null).1 = initialState :=
  ⟨(send_succeeds_iff_open sConn Json.null).1.mpr rfl,
   (send_succeeds_iff_open sConn Json.null).2.2
     ((send_succeeds_iff_open sConn Json.null).1.mpr rfl),
   (send_succeeds_iff_open initialState Json.null).2.1 rfl⟩

/-- C10: `sendMessage` mutates no observable state in any connection
state: status, connected flag, attempt counter, last message, update
counter, timers, sockets and the invalidation log are all preserved;
its only effects are the optional transport write and the returned
boolean. -/
theorem send_message_preserves_state (s : AppState) (m : Json) :
    (sendMessage s m).1.connectionStatus = s.connectionStatus
    ∧ (sendMessage s m).1.isConnected = s.isConnected
    ∧ (sendMessage s m).1.reconnectAttempts = s.reconnectAttempts
    ∧ (sendMessage s m).1.lastMessage = s.lastMessage
    ∧ (sendMessage s m).1.updateCount = s.updateCount
    ∧ (sendMessage s m).1.timers = s.timers
    ∧ (sendMessage s m).1.sockets = s.sockets
    ∧ (sendMessage s m).1.invalidations = s.invalidations := by
  unfold sendMessage
  cases hw : s.wsCurrent with
  | none => simp
  | some sid =>
    cases hf : findSock s.sockets sid with
    | none => simp [hf]
    | some k =>
      by_cases hst : k.status = SockStatus.opened
      · simp [hf, hst]
      · simp [hf, hst]

end Dashboard
